import Mathlib

/-!
Verification of the DNS configuration validator (`scripts/validate-config.py`).

The script validates a DNS-zone configuration document against a JSON schema
and checks provider compatibility.  This file gives a shallow embedding of its
core functions — `validate_schema`, `check_provider_compatibility`,
`get_statistics` and the exit-code logic of `main` — and proves the stated
properties about them.

Modelling conventions:
  * A parsed JSON value is modelled by `Json`; Python truthiness by
    `Json.truthy` (`None`, `False`, `0`, `""`, `[]`, `{}` are falsy).
  * A record / zone is modelled as a structure of the optional fields the
    script reads via `dict.get`; an absent key is `none`, matching `get`'s
    default-value semantics.
  * `--provider` is restricted by `argparse` to `aws`, `cloudflare`,
    `vercel`, modelled by the inductive `Provider`; absence is `Option`.
  * Python's `str.upper()` is modelled by `upper` (ASCII case mapping via
    `Char.toUpper`; every record type involved is ASCII).
  * The `jsonschema` library (`Draft7Validator(schema).iter_errors`) is not
    part of this repository; `validate_schema` therefore takes it as the
    parameter `validator`: `.ok errs` models a normal run yielding the
    collected schema errors as (message, path-components) pairs, and
    `.error e` models the `try` block raising an exception with message `e`
    (in particular a malformed schema document).
-/

/-- A parsed JSON value, as produced by `json.load`. -/
inductive Json where
  | null : Json
  | bool (b : Bool) : Json
  | num (n : Int) : Json
  | str (s : String) : Json
  | arr (l : List Json) : Json
  | obj (l : List (String × Json)) : Json

/-- Python truthiness of a JSON value: `None`, `False`, `0`, `""`, `[]` and
`{}` are falsy, everything else is truthy. -/
def Json.truthy : Json → Bool
  | .null => false
  | .bool b => b
  | .num n => n != 0
  | .str s => s != ""
  | .arr l => !l.isEmpty
  | .obj l => !l.isEmpty

/-- The fields of a DNS record that `check_provider_compatibility` and
`get_statistics` read with `record.get(...)`.  `none` models an absent key. -/
structure Record where
  type? : Option String := none
  name? : Option String := none
  proxied? : Option Json := none
  alias? : Option Json := none
  priority? : Option Json := none

/-- The fields of a zone that the script reads: `zone_config.get('domain')`
and `zone_config.get('records', [])`. -/
structure Zone where
  domain? : Option String := none
  records? : Option (List Record) := none

/-- A configuration: a JSON object mapping zone keys to zones, in document
(insertion) order, as iterated by `config.items()`. -/
abbrev Config : Type := List (String × Zone)

/-- The `--provider` argument; `argparse` restricts it to these three
choices. -/
inductive Provider where
  | aws : Provider
  | cloudflare : Provider
  | vercel : Provider
deriving DecidableEq

/-- The provider's name string, as interpolated into warning messages. -/
def Provider.name : Provider → String
  | .aws => "aws"
  | .cloudflare => "cloudflare"
  | .vercel => "vercel"

/-- `SUPPORTED_RECORD_TYPES`: record types supported by each provider. -/
def SUPPORTED_RECORD_TYPES : Provider → List String
  | .aws =>
    ["A", "AAAA", "CAA", "CNAME", "MX", "NAPTR", "NS",
     "PTR", "SOA", "SPF", "SRV", "TXT"]
  | .cloudflare =>
    ["A", "AAAA", "CAA", "CNAME", "HTTPS", "TXT", "SRV",
     "LOC", "MX", "NS", "CERT", "DNSKEY", "DS", "NAPTR",
     "SMIMEA", "SSHFP", "SVCB", "TLSA", "URI"]
  | .vercel =>
    ["A", "AAAA", "ALIAS", "CAA", "CNAME", "MX", "SRV", "TXT"]

/-- Python's `str.upper()` (ASCII case mapping). -/
def upper (s : String) : String := ⟨s.data.map Char.toUpper⟩

/-- The common prefix `f"  ⚠️  {zone_key}/{record.get('name', '@')} - "` of
every warning message. -/
def warnHead (zoneKey : String) (rname : String) : String :=
  "  ⚠️  " ++ zoneKey ++ "/" ++ rname ++ " - "

/-- The warnings the body of the record loop of
`check_provider_compatibility` appends for one record, in program order:
unsupported type (provider-specific), proxied (provider, then record type),
alias (provider-specific), MX priority.  `table` abstracts the global
`SUPPORTED_RECORD_TYPES` so that the state-threaded rendering below can carry
it explicitly. -/
def checkRecordWarningsT (table : Provider → List String) (prov? : Option Provider)
    (zoneKey : String) (record : Record) : List String :=
  let recordType := upper (record.type?.getD "")
  let rname := record.name?.getD "@"
  let head := warnHead zoneKey rname
  let w1 : List String :=
    match prov? with
    | some p =>
      if recordType ∉ table p then
        [head ++ "Type \x27" ++ recordType ++ "\x27 not supported by " ++ p.name]
      else []
    | none => []
  let w2 : List String :=
    if (record.proxied?.getD (Json.bool false)).truthy then
      (match prov? with
       | some p =>
         if p ≠ Provider.cloudflare then
           [head ++ "\x27proxied\x27 is only supported by Cloudflare"]
         else []
       | none => []) ++
      (if recordType ∉ ["A", "AAAA", "CNAME"] then
         [head ++ "\x27proxied\x27 only works with A, AAAA, CNAME"]
       else [])
    else []
  let w3 : List String :=
    if (record.alias?.getD Json.null).truthy then
      match prov? with
      | some p =>
        if p ≠ Provider.aws then
          [head ++ "\x27alias\x27 is only supported by AWS Route53"]
        else []
      | none => []
    else []
  let w4 : List String :=
    if recordType = "MX" ∧ (record.priority?.getD Json.null).truthy = false then
      [head ++ "MX records require \x27priority\x27"]
    else []
  w1 ++ w2 ++ w3 ++ w4

/-- Per-record warnings against the process-wide `SUPPORTED_RECORD_TYPES`
table. -/
def checkRecordWarnings (prov? : Option Provider) (zoneKey : String)
    (record : Record) : List String :=
  checkRecordWarningsT SUPPORTED_RECORD_TYPES prov? zoneKey record

/-- `check_provider_compatibility(config, provider)`, generalised over the
supported-types table: iterates zones, then records, in document order,
collecting warnings, and returns `(len(warnings) == 0, warnings)`. -/
def check_provider_compatibilityT (table : Provider → List String)
    (config : Config) (prov? : Option Provider) : Bool × List String :=
  let warnings :=
    config.flatMap (fun zk =>
      (zk.2.records?.getD []).flatMap (checkRecordWarningsT table prov? zk.1))
  (warnings.length == 0, warnings)

/-- `check_provider_compatibility(config, provider)` from the script. -/
def check_provider_compatibility (config : Config) (prov? : Option Provider) :
    Bool × List String :=
  check_provider_compatibilityT SUPPORTED_RECORD_TYPES config prov?

/-- The outcome of `Draft7Validator(schema).iter_errors(config)`: a normal
run yields the list of schema errors as (message, path-components) pairs;
`.error e` models the library raising an exception with message `e`. -/
abbrev SchemaValidator : Type := Config → Except String (List (String × List String))

/-- `validate_schema(config, schema)`: formats every error as
`f"  • {error.message} (path: {'.'.join(...)})"` and returns
`(len(errors) == 0, errors)`; any exception `e` raised inside the `try`
block (in particular a malformed schema document) is caught and appended to
the same `errors` list as `f"  • {str(e)}"`, returning `(False, errors)`. -/
def validate_schema (validator : SchemaValidator) (config : Config) :
    Bool × List String :=
  match validator config with
  | .ok errs =>
    let errors := errs.map (fun er =>
      "  • " ++ er.1 ++ " (path: " ++ String.intercalate "." er.2 ++ ")")
    (errors.length == 0, errors)
  | .error e => (false, ["  • " ++ e])

/-- Mutable state of the Python dict
`stats = {'zones': ..., 'total_records': ..., 'record_types': ..., 'zones_list': ...}`
built by `get_statistics`. -/
structure Statistics where
  zones : Nat
  total_records : Nat
  record_types : List (String × Nat)
  zones_list : List (String × Option String × Nat)

/-- Python dict update
`d[k] = d.get(k, 0) + 1` on an insertion-ordered association list: an
existing key is updated in place, a new key is appended at the end. -/
def bump : List (String × Nat) → String → List (String × Nat)
  | [], k => [(k, 1)]
  | (k2, v) :: rest, k =>
    if k2 = k then (k2, v + 1) :: rest else (k2, v) :: bump rest k

/-- `d.get(k, 0)` on an insertion-ordered association list. -/
def lookupCount : List (String × Nat) → String → Nat
  | [], _ => 0
  | (k, v) :: rest, t => if k = t then v else lookupCount rest t

/-- The inner loop of `get_statistics`: tally
`record.get('type', 'UNKNOWN')` for each record of a zone. -/
def tallyRecords (m : List (String × Nat)) (records : List Record) :
    List (String × Nat) :=
  records.foldl (fun m r => bump m (r.type?.getD "UNKNOWN")) m

/-- The body of the zone loop of `get_statistics`. -/
def statsStep (stats : Statistics) (zk : String × Zone) : Statistics :=
  let records := zk.2.records?.getD []
  { zones := stats.zones
    total_records := stats.total_records + records.length
    record_types := tallyRecords stats.record_types records
    zones_list := stats.zones_list ++ [(zk.1, zk.2.domain?, records.length)] }

/-- `get_statistics(config)`: `zones` is `len(config)`, set before the loop;
the loop accumulates the remaining fields in document order. -/
def get_statistics (config : Config) : Statistics :=
  config.foldl statsStep
    { zones := config.length, total_records := 0, record_types := [], zones_list := [] }

/-- The exit-code logic of `main` after the files are loaded: exit 1 when
the schema check failed; otherwise, with a provider selected, exit 1 exactly
when there are compatibility warnings and `--strict` is set; in every other
case `main` runs to completion (exit 0). -/
def main_exit (schemaResult : Bool × List String) (config : Config)
    (prov? : Option Provider) (strict : Bool) : Nat :=
  if !schemaResult.1 then 1
  else
    match prov? with
    | some p =>
      let res := check_provider_compatibility config (some p)
      if res.1 then 0 else if strict then 1 else 0
    | none => 0

/-- The program state the core functions can reach: the parsed configuration
and the module-level `SUPPORTED_RECORD_TYPES` table.  The source contains no
assignment into either (it only reads them via `.items()`, `.get`, `len` and
`in`), so each operation below is its statement-by-statement rendering with
this state threaded through unchanged. -/
structure St where
  config : Config
  supported : Provider → List String

/-- `validate_schema` as a state transformer over `St`. -/
def validate_schema_st (validator : SchemaValidator) (st : St) :
    (Bool × List String) × St :=
  (validate_schema validator st.config, st)

/-- `check_provider_compatibility` as a state transformer over `St`, reading
the supported-types table from the state. -/
def check_provider_compatibility_st (st : St) (prov? : Option Provider) :
    (Bool × List String) × St :=
  (check_provider_compatibilityT st.supported st.config prov?, st)

/-- `get_statistics` as a state transformer over `St`. -/
def get_statistics_st (st : St) : Statistics × St :=
  (get_statistics st.config, st)

/-- The record `{"type": "MX", "name": "@"}` of the CLI scenario. -/
def recMX : Record := { type? := some "MX", name? := some "@" }

/-- The configuration
`{"z1": {"domain": "example.com", "records": [{"type": "MX", "name": "@"}]}}`
of the CLI scenario. -/
def cfgMX : Config :=
  [("z1", { domain? := some "example.com", records? := some [recMX] })]

/-- A record `{"type": "SVCB"}`. -/
def recSVCB : Record := { type? := some "SVCB" }

/-- A one-zone configuration holding only `recSVCB`. -/
def cfgSVCB : Config := [("z1", { records? := some [recSVCB] })]

/-- A record `{"type": "A", "proxied": true}`. -/
def recProxA : Record := { type? := some "A", proxied? := some (Json.bool true) }

/-- A one-zone configuration holding only `recProxA`. -/
def cfgProxA : Config := [("z1", { records? := some [recProxA] })]

/-- A record `{"type": "A", "alias": false}`: the `alias` key is present but
its value is falsy. -/
def recAliasFalse : Record := { type? := some "A", alias? := some (Json.bool false) }

/-- A one-zone configuration holding only `recAliasFalse`. -/
def cfgAliasFalse : Config := [("z1", { records? := some [recAliasFalse] })]

/-- A record `{"type": "A", "alias": {"name": "lb.example.com"}}`: the
`alias` key holds a truthy value. -/
def recAliasTrue : Record :=
  { type? := some "A", alias? := some (Json.obj [("name", Json.str "lb.example.com")]) }

/-- A one-zone configuration holding only `recAliasTrue`. -/
def cfgAliasTrue : Config := [("z1", { records? := some [recAliasTrue] })]

/-- A record with no `type` key at all. -/
def recNoType : Record := { name? := some "www" }

/-- A one-zone configuration holding only `recNoType`. -/
def cfgNoType : Config := [("z1", { records? := some [recNoType] })]

/-- A plain record of the given type. -/
def recOf (t : String) : Record := { type? := some t }

/-- A two-zone configuration with 3 and 5 records respectively. -/
def cfgTwoZones : Config :=
  [("z1", ⟨some "one.example", some [recOf "A", recOf "A", recOf "TXT"]⟩),
   ("z2", ⟨some "two.example", some
      [recOf "A", { type? := some "MX", priority? := some (Json.num 10) },
       recOf "CNAME", recOf "TXT", recOf "NS"]⟩)]

/-- A schema-collaborator run that raises: models `Draft7Validator` being
handed a malformed schema document. -/
def badSchemaValidator : SchemaValidator := fun _ => .error "boom (path: )"

/-- A schema-collaborator run that succeeds and reports one ordinary
validation error with an empty path. -/
def oneErrorValidator : SchemaValidator := fun _ => .ok [("boom", [])]

/-- A record `{"type": "TXT", "proxied": true}`. -/
def recProxTXT : Record := { type? := some "TXT", proxied? := some (Json.bool true) }

/-- A one-zone configuration holding only `recProxTXT`. -/
def cfgProxTXT : Config := [("z1", { records? := some [recProxTXT] })]

/-!  Helper lemmas. -/

/-- Membership in a per-record warning batch propagates to the warnings of
the whole configuration. -/
theorem mem_warnings_of_mem (config : Config) (prov? : Option Provider)
    (zk : String) (z : Zone) (r : Record) (w : String)
    (hz : (zk, z) ∈ config) (hr : r ∈ z.records?.getD [])
    (hw : w ∈ checkRecordWarnings prov? zk r) :
    w ∈ (check_provider_compatibility config prov?).2 :=
  List.mem_flatMap.mpr ⟨(zk, z), hz, List.mem_flatMap.mpr ⟨r, hr, hw⟩⟩

/-- An element of a conditional singleton list is that singleton. -/
theorem eq_of_mem_opt {c : Prop} [Decidable c] {x a : String}
    (h : x ∈ (if c then [a] else [])) : x = a := by
  split at h <;> simp_all

/-- An element of a conditionally empty list witnesses the condition. -/
theorem cond_of_mem_opt {c : Prop} [Decidable c] {x : String} {l : List String}
    (h : x ∈ (if c then l else [])) : c := by
  split at h
  · assumption
  · simp at h

/-- An element of a conditionally empty list is an element of the list. -/
theorem mem_of_mem_opt {c : Prop} [Decidable c] {x : String} {l : List String}
    (h : x ∈ (if c then l else [])) : x ∈ l := by
  split at h
  · exact h
  · simp at h

/-- An unsupported-type warning never coincides with a warning whose message
part starts with a character other than `T` (all four other rule messages
do), given that both share the `warnHead` prefix. -/
theorem unsup_warn_ne (h T N s : String) (hs : s.data.head? ≠ some 'T') :
    h ++ "Type \x27" ++ T ++ "\x27 not supported by " ++ N ≠ h ++ s := by
  intro e
  have hd := congrArg String.data e
  simp only [String.data_append, List.append_assoc] at hd
  have h2 := List.append_cancel_left hd
  have h3 : (("Type \x27".data ++ (T.data ++ ("\x27 not supported by ".data ++ N.data)))).head?
      = some 'T' := rfl
  have h4 := congrArg List.head? h2
  rw [h3] at h4
  exact hs h4.symm


/-- Rule 5 at record level: an MX record without a truthy priority gets the
MX-priority warning, for any provider argument. -/
theorem mx_warn_mem_record (prov? : Option Provider) (zk : String) (r : Record)
    (hty : upper (r.type?.getD "") = "MX")
    (hpr : (r.priority?.getD Json.null).truthy = false) :
    warnHead zk (r.name?.getD "@") ++ "MX records require \x27priority\x27"
      ∈ checkRecordWarnings prov? zk r := by
  simp [checkRecordWarnings, checkRecordWarningsT, hty, hpr]

/-- Rule 2 at record level: a proxied record checked against a provider other
than cloudflare gets the proxied-provider warning. -/
theorem proxied_provider_warn_mem_record (p : Provider) (zk : String) (r : Record)
    (hprox : (r.proxied?.getD (Json.bool false)).truthy = true)
    (hp : p ≠ Provider.cloudflare) :
    warnHead zk (r.name?.getD "@") ++ "\x27proxied\x27 is only supported by Cloudflare"
      ∈ checkRecordWarnings (some p) zk r := by
  simp [checkRecordWarnings, checkRecordWarningsT, hprox, hp]

/-- Rule 3 at record level: a proxied record whose type is not A, AAAA or
CNAME gets the proxied-type warning, for any provider argument. -/
theorem proxied_type_warn_mem_record (prov? : Option Provider) (zk : String) (r : Record)
    (hprox : (r.proxied?.getD (Json.bool false)).truthy = true)
    (hty : upper (r.type?.getD "") ∉ ["A", "AAAA", "CNAME"]) :
    warnHead zk (r.name?.getD "@") ++ "\x27proxied\x27 only works with A, AAAA, CNAME"
      ∈ checkRecordWarnings prov? zk r := by
  simp [checkRecordWarnings, checkRecordWarningsT, hprox, hty]

/-- Rule 4 at record level: a record whose alias value is truthy, checked
against a provider other than aws, gets the alias warning. -/
theorem alias_warn_mem_record (p : Provider) (zk : String) (r : Record)
    (halias : (r.alias?.getD Json.null).truthy = true)
    (hp : p ≠ Provider.aws) :
    warnHead zk (r.name?.getD "@") ++ "\x27alias\x27 is only supported by AWS Route53"
      ∈ checkRecordWarnings (some p) zk r := by
  simp [checkRecordWarnings, checkRecordWarningsT, halias, hp]

/-- Rule 1 at record level, both directions: the unsupported-type warning is
emitted for a record exactly when its uppercased type is outside the
provider's supported set. -/
theorem unsup_warn_mem_iff (p : Provider) (zk : String) (r : Record) :
    (warnHead zk (r.name?.getD "@") ++ "Type \x27" ++ upper (r.type?.getD "")
        ++ "\x27 not supported by " ++ p.name
      ∈ checkRecordWarnings (some p) zk r)
    ↔ upper (r.type?.getD "") ∉ SUPPORTED_RECORD_TYPES p := by
  constructor
  · intro hmem
    simp only [checkRecordWarnings, checkRecordWarningsT, List.append_assoc,
      List.mem_append] at hmem
    rcases hmem with h1 | h2 | h3 | h4
    · exact cond_of_mem_opt h1
    · have h2' := mem_of_mem_opt h2
      rcases List.mem_append.mp h2' with h2a | h2b
      · exact absurd (eq_of_mem_opt h2a) (unsup_warn_ne _ _ _ _ (by decide))
      · exact absurd (eq_of_mem_opt h2b) (unsup_warn_ne _ _ _ _ (by decide))
    · exact absurd (eq_of_mem_opt (mem_of_mem_opt h3)) (unsup_warn_ne _ _ _ _ (by decide))
    · exact absurd (eq_of_mem_opt h4) (unsup_warn_ne _ _ _ _ (by decide))
  · intro hT
    simp [checkRecordWarnings, checkRecordWarningsT, hT]

/-- Merging the empty uppercased type into the surrounding literals of the
unsupported-type warning. -/
theorem empty_type_merge (h n : String) :
    h ++ "Type \x27" ++ "" ++ "\x27 not supported by " ++ n
      = h ++ "Type \x27\x27 not supported by " ++ n := by
  apply String.ext
  simp only [String.data_append, List.append_assoc]
  rfl

/-- Rule 1 at record level for a missing or empty type: the uppercased type
is the empty string, which no provider supports. -/
theorem empty_type_warn_mem_record (p : Provider) (zk : String) (r : Record)
    (hty : r.type?.getD "" = "") :
    warnHead zk (r.name?.getD "@") ++ "Type \x27\x27 not supported by " ++ p.name
      ∈ checkRecordWarnings (some p) zk r := by
  have h0 : upper (r.type?.getD "") = "" := by rw [hty]; rfl
  have hns : upper (r.type?.getD "") ∉ SUPPORTED_RECORD_TYPES p := by
    rw [h0]; cases p <;> decide
  have hmem := (unsup_warn_mem_iff p zk r).mpr hns
  rw [h0, empty_type_merge] at hmem
  exact hmem

/-- Claim C1: for every configuration and every record in it whose uppercased
type is `MX` and whose priority is absent or falsy,
`check_provider_compatibility` emits the MX-priority warning for that record,
for every provider argument and also with no provider. -/
theorem mx_priority_rule (config : Config) (prov? : Option Provider)
    (zk : String) (z : Zone) (r : Record)
    (hz : (zk, z) ∈ config) (hr : r ∈ z.records?.getD [])
    (hty : upper (r.type?.getD "") = "MX")
    (hpr : (r.priority?.getD Json.null).truthy = false) :
    warnHead zk (r.name?.getD "@") ++ "MX records require \x27priority\x27"
      ∈ (check_provider_compatibility config prov?).2 :=
  mem_warnings_of_mem config prov? zk z r _ hz hr
    (mx_warn_mem_record prov? zk r hty hpr)

/-- Witness for C1: the scenario configuration with provider aws. -/
theorem mx_priority_rule_witness :
    warnHead "z1" "@" ++ "MX records require \x27priority\x27"
      ∈ (check_provider_compatibility cfgMX (some Provider.aws)).2 :=
  mx_priority_rule cfgMX (some Provider.aws) "z1"
    ⟨some "example.com", some [recMX]⟩ recMX
    (List.Mem.head _) (List.Mem.head _) rfl rfl

/-- Claim C2: with a provider given, the unsupported-type warning for a
record is emitted exactly when the record's uppercased type is outside that
provider's supported set; `check_provider_compatibility` is the per-record
batch flattened over the configuration; and a `SVCB` record checked against
aws yields exactly that one warning, `SVCB` being supported by cloudflare but
not by aws. -/
theorem unsupported_type_rule :
    (∀ (p : Provider) (zk : String) (r : Record),
        (warnHead zk (r.name?.getD "@") ++ "Type \x27" ++ upper (r.type?.getD "")
            ++ "\x27 not supported by " ++ p.name
          ∈ checkRecordWarnings (some p) zk r)
        ↔ upper (r.type?.getD "") ∉ SUPPORTED_RECORD_TYPES p)
    ∧ (∀ (config : Config) (prov? : Option Provider),
        (check_provider_compatibility config prov?).2
          = config.flatMap (fun zk =>
              (zk.2.records?.getD []).flatMap (checkRecordWarnings prov? zk.1)))
    ∧ (check_provider_compatibility cfgSVCB (some Provider.aws)).2
        = [warnHead "z1" "@" ++ "Type \x27SVCB\x27 not supported by aws"]
    ∧ "SVCB" ∈ SUPPORTED_RECORD_TYPES Provider.cloudflare
    ∧ "SVCB" ∉ SUPPORTED_RECORD_TYPES Provider.aws :=
  ⟨unsup_warn_mem_iff, fun _ _ => rfl, by decide, by decide, by decide⟩

/-- Claim C3: a proxied record checked against a provider other than
cloudflare gets the proxied-provider warning; a proxied record whose type is
not A, AAAA or CNAME gets the proxied-type warning for any provider argument;
and the record `{"type": "A", "proxied": true}` checked against aws gets the
former but not the latter. -/
theorem proxied_rules :
    (∀ (config : Config) (p : Provider) (zk : String) (z : Zone) (r : Record),
        (zk, z) ∈ config → r ∈ z.records?.getD [] →
        (r.proxied?.getD (Json.bool false)).truthy = true →
        p ≠ Provider.cloudflare →
        warnHead zk (r.name?.getD "@") ++ "\x27proxied\x27 is only supported by Cloudflare"
          ∈ (check_provider_compatibility config (some p)).2)
    ∧ (∀ (config : Config) (prov? : Option Provider) (zk : String) (z : Zone) (r : Record),
        (zk, z) ∈ config → r ∈ z.records?.getD [] →
        (r.proxied?.getD (Json.bool false)).truthy = true →
        upper (r.type?.getD "") ∉ ["A", "AAAA", "CNAME"] →
        warnHead zk (r.name?.getD "@") ++ "\x27proxied\x27 only works with A, AAAA, CNAME"
          ∈ (check_provider_compatibility config prov?).2)
    ∧ (warnHead "z1" "@" ++ "\x27proxied\x27 is only supported by Cloudflare"
        ∈ (check_provider_compatibility cfgProxA (some Provider.aws)).2)
    ∧ (warnHead "z1" "@" ++ "\x27proxied\x27 only works with A, AAAA, CNAME"
        ∉ (check_provider_compatibility cfgProxA (some Provider.aws)).2) :=
  ⟨fun config p zk z r hz hr hprox hp =>
      mem_warnings_of_mem config (some p) zk z r _ hz hr
        (proxied_provider_warn_mem_record p zk r hprox hp),
   fun config prov? zk z r hz hr hprox hty =>
      mem_warnings_of_mem config prov? zk z r _ hz hr
        (proxied_type_warn_mem_record prov? zk r hprox hty),
   by decide, by decide⟩

/-- Witness for C3: both general parts applied at concrete inputs. -/
theorem proxied_rules_witness :
    (warnHead "z1" "@" ++ "\x27proxied\x27 is only supported by Cloudflare"
      ∈ (check_provider_compatibility cfgProxA (some Provider.aws)).2)
    ∧ (warnHead "z1" "@" ++ "\x27proxied\x27 only works with A, AAAA, CNAME"
      ∈ (check_provider_compatibility cfgProxTXT none).2) :=
  ⟨proxied_rules.1 cfgProxA Provider.aws "z1" ⟨none, some [recProxA]⟩ recProxA
      (List.Mem.head _) (List.Mem.head _) rfl (by decide),
   proxied_rules.2.1 cfgProxTXT none "z1" ⟨none, some [recProxTXT]⟩ recProxTXT
      (List.Mem.head _) (List.Mem.head _) rfl (by decide)⟩

/-- Counterexample for C4 as stated: the record
`{"type": "A", "alias": false}` has its `alias` field present, the provider
cloudflare differs from aws, yet `check_provider_compatibility` emits no
warning at all — `record.get('alias')` tests truthiness, not presence. -/
theorem alias_presence_counterexample :
    recAliasFalse.alias? ≠ none
    ∧ Provider.cloudflare ≠ Provider.aws
    ∧ (check_provider_compatibility cfgAliasFalse (some Provider.cloudflare)).2 = [] :=
  ⟨by simp [recAliasFalse], by decide, by decide⟩

/-- Claim C4 (amended): if the alias field is present with a truthy value and
a provider other than aws is given, `check_provider_compatibility` emits the
alias-exclusivity warning for that record. -/
theorem alias_rule_truthy (config : Config) (p : Provider)
    (zk : String) (z : Zone) (r : Record)
    (hz : (zk, z) ∈ config) (hr : r ∈ z.records?.getD [])
    (halias : (r.alias?.getD Json.null).truthy = true)
    (hp : p ≠ Provider.aws) :
    warnHead zk (r.name?.getD "@") ++ "\x27alias\x27 is only supported by AWS Route53"
      ∈ (check_provider_compatibility config (some p)).2 :=
  mem_warnings_of_mem config (some p) zk z r _ hz hr
    (alias_warn_mem_record p zk r halias hp)

/-- Witness for C4 (amended): a record with a truthy alias value, provider
cloudflare. -/
theorem alias_rule_truthy_witness :
    warnHead "z1" "@" ++ "\x27alias\x27 is only supported by AWS Route53"
      ∈ (check_provider_compatibility cfgAliasTrue (some Provider.cloudflare)).2 :=
  alias_rule_truthy cfgAliasTrue Provider.cloudflare "z1"
    ⟨none, some [recAliasTrue]⟩ recAliasTrue
    (List.Mem.head _) (List.Mem.head _) rfl (by decide)

/-- Counterexample for C5 as stated: a run whose schema collaborator raises
(malformed schema) returns a value literally equal to that of an ordinary
schema-validation failure — the exception is reported through the same
`(False, errors)` channel, so no distinct InternalError outcome exists. -/
theorem internal_error_counterexample :
    validate_schema badSchemaValidator [] = validate_schema oneErrorValidator []
    ∧ (validate_schema badSchemaValidator []).1 = false
    ∧ (validate_schema badSchemaValidator []).2 = ["  • boom (path: )"] :=
  ⟨rfl, rfl, rfl⟩

/-- Claim C5 (amended): when the schema collaborator raises with message `e`,
`validate_schema` catches the exception and returns `(False, [...])` through
the same result channel used for ordinary validation errors, with `str(e)`
formatted onto the shared errors list. -/
theorem malformed_schema_same_channel :
    ∀ (e : String) (config : Config),
      validate_schema (fun _ => .error e) config = (false, ["  • " ++ e]) :=
  fun _ _ => rfl

/-- Claim C6: the scenario configuration is assumed schema-valid; with
provider aws and `--strict`, `main` exits 1 after emitting the MX-priority
warning, whose text mentions "priority"; without `--strict` it exits 0 while
the same warning is still produced. -/
theorem scenario_mx_strict :
    main_exit (true, []) cfgMX (some Provider.aws) true = 1
    ∧ main_exit (true, []) cfgMX (some Provider.aws) false = 0
    ∧ (check_provider_compatibility cfgMX (some Provider.aws)).2
        = [warnHead "z1" "@" ++ "MX records require \x27priority\x27"]
    ∧ ∃ pre post,
        warnHead "z1" "@" ++ "MX records require \x27priority\x27"
          = pre ++ "priority" ++ post :=
  ⟨by decide, by decide, by decide,
   ⟨"  ⚠️  z1/@ - MX records require \x27", "\x27", by decide⟩⟩

/-- Claim C10: for every record with a missing or empty type, checked against
any provider, `check_provider_compatibility` emits the warning
`Type '' not supported by <provider>`, since the type defaults to the empty
string, which is in no provider's supported set. -/
theorem missing_type_unsupported (config : Config) (p : Provider)
    (zk : String) (z : Zone) (r : Record)
    (hz : (zk, z) ∈ config) (hr : r ∈ z.records?.getD [])
    (hty : r.type?.getD "" = "") :
    warnHead zk (r.name?.getD "@") ++ "Type \x27\x27 not supported by " ++ p.name
      ∈ (check_provider_compatibility config (some p)).2 :=
  mem_warnings_of_mem config (some p) zk z r _ hz hr
    (empty_type_warn_mem_record p zk r hty)

/-- Witness for C10: a record with no type key, checked against aws. -/
theorem missing_type_unsupported_witness :
    warnHead "z1" "www" ++ "Type \x27\x27 not supported by " ++ Provider.aws.name
      ∈ (check_provider_compatibility cfgNoType (some Provider.aws)).2 :=
  missing_type_unsupported cfgNoType Provider.aws "z1"
    ⟨none, some [recNoType]⟩ recNoType
    (List.Mem.head _) (List.Mem.head _) rfl

/-- `bump` adds one to the looked-up count of its key and leaves every other
key's count unchanged. -/
theorem lookupCount_bump (m : List (String × Nat)) (k t : String) :
    lookupCount (bump m k) t = lookupCount m t + (if k = t then 1 else 0) := by
  induction m with
  | nil => simp only [bump, lookupCount]; split <;> simp_all
  | cons a rest ih =>
    obtain ⟨k2, v⟩ := a
    simp only [bump, lookupCount]
    split <;> simp only [lookupCount] <;> split_ifs <;> simp_all

/-- Tallying a batch of records adds, for each key, the number of records
whose (defaulted) type is that key. -/
theorem lookupCount_tally (records : List Record) :
    ∀ (m : List (String × Nat)) (t : String),
      lookupCount (tallyRecords m records) t
        = lookupCount m t
          + records.countP (fun r => r.type?.getD "UNKNOWN" == t) := by
  induction records with
  | nil => intro m t; simp [tallyRecords]
  | cons r rest ih =>
    intro m t
    simp only [tallyRecords, List.foldl_cons] at *
    rw [ih, lookupCount_bump, List.countP_cons]
    simp only [beq_iff_eq]
    omega

/-- The zone loop never touches the `zones` field. -/
theorem statsFold_zones (l : List (String × Zone)) :
    ∀ s : Statistics, (l.foldl statsStep s).zones = s.zones := by
  induction l with
  | nil => intro s; rfl
  | cons a t ih =>
    intro s
    rw [List.foldl_cons, ih]
    rfl

/-- The zone loop adds each zone's record count to `total_records`. -/
theorem statsFold_total (l : List (String × Zone)) :
    ∀ s : Statistics,
      (l.foldl statsStep s).total_records
        = s.total_records + (l.map (fun zk => (zk.2.records?.getD []).length)).sum := by
  induction l with
  | nil => intro s; simp
  | cons a t ih =>
    intro s
    rw [List.foldl_cons, ih]
    simp only [statsStep, List.map_cons, List.sum_cons]
    omega

/-- The zone loop tallies, for each key, the records of all zones whose
(defaulted) type is that key. -/
theorem statsFold_types (l : List (String × Zone)) :
    ∀ (s : Statistics) (t : String),
      lookupCount (l.foldl statsStep s).record_types t
        = lookupCount s.record_types t
          + (l.flatMap (fun zk => zk.2.records?.getD [])).countP
              (fun r => r.type?.getD "UNKNOWN" == t) := by
  induction l with
  | nil => intro s t; simp
  | cons a tl ih =>
    intro s t
    rw [List.foldl_cons, ih]
    simp only [statsStep, lookupCount_tally, List.flatMap_cons, List.countP_append]
    omega

/-- Claim C7: `get_statistics` returns the number of zone keys in `zones`,
the summed record counts in `total_records`, and a type tally in which each
type key counts the records whose type defaults to it — a record with no
type key is counted under "UNKNOWN"; on a 2-zone configuration with 3 and 5
records it returns 2 and 8. -/
theorem get_statistics_spec :
    ∀ config : Config,
      (get_statistics config).zones = config.length
      ∧ (get_statistics config).total_records
          = (config.map (fun zk => (zk.2.records?.getD []).length)).sum
      ∧ (∀ t : String,
            lookupCount (get_statistics config).record_types t
              = (config.flatMap (fun zk => zk.2.records?.getD [])).countP
                  (fun r => r.type?.getD "UNKNOWN" == t))
      ∧ (get_statistics cfgTwoZones).zones = 2
      ∧ (get_statistics cfgTwoZones).total_records = 8
      ∧ lookupCount (get_statistics cfgNoType).record_types "UNKNOWN" = 1 := by
  intro config
  refine ⟨statsFold_zones config _, ?_, ?_, by decide, by decide, by decide⟩
  · rw [get_statistics, statsFold_total]
    simp
  · intro t
    rw [get_statistics, statsFold_types]
    simp [lookupCount]

/-- Claim C8: none of the three core operations mutates the configuration or
the provider-capability table: run as state transformers over `St`, each
returns the state unchanged (the source only reads the state, via
`.items()`, `.get`, `len` and `in`). -/
theorem core_preserves_state :
    ∀ (validator : SchemaValidator) (st : St) (prov? : Option Provider),
      (validate_schema_st validator st).2 = st
      ∧ (check_provider_compatibility_st st prov?).2 = st
      ∧ (get_statistics_st st).2 = st :=
  fun _ _ _ => ⟨rfl, rfl, rfl⟩

/-- Claim C9: running the schema checker a second time, from the state left
behind by the first run and on the same document and schema collaborator,
returns the identical `(schemaValid, errors)` pair and the identical state —
the checker keeps no hidden state. -/
theorem schema_checker_idempotent :
    ∀ (validator : SchemaValidator) (st : St),
      validate_schema_st validator (validate_schema_st validator st).2
        = validate_schema_st validator st :=
  fun _ _ => rfl
